import Mathlib

/-!
Shallow embedding of the starboard pipeline of `src/cogs/starboard.py`
(class `StarBoardCog`): the renderer `generate_starboard_embed`, the image
archiver `archive_image`, and the reaction listener `on_star_add`
(registered for both raw reaction add and remove events).

Conventions of the embedding:
* Discord snowflake ids, timestamps and sizes are `Nat`.
* The float literal `0.1` of the source is modelled as the rational `1/10`
  (the source compares a Python `int` tally against an `int * 0.1` float;
  binary-float rounding of `0.1` is not modelled).
* Network interactions (message fetches, sends, edits, HTTP GETs) are
  modelled as oracles carried in an environment record; a call that the
  source does not wrap in `try` and that raises is reported through the
  `raised` flag of the outcome.
* The ORM table `StarBoardMessage` is declared in `utils/db.py`, which is
  not among the sources here; its operations are modelled from the spec
  (§4.4 Mirror Store): see `Store.get`, `Store.getOrCreate`,
  `Store.delete`, `Store.setMirror`.
-/

namespace LCC

/-- `"\N{white medium star}"` (U+2B50), the only emoji the listener recognises. -/
def starGlyph : String := "⭐"

/-- `"\N{no entry sign}"` (U+26D4), shown when the star count renders as empty. -/
def noEntryGlyph : String := "⛔"

/-- `discord.utils.format_dt(ts, "R")` renders as `<t:TS:R>`. -/
def formatDt (ts : Nat) : String := "<t:" ++ toString ts ++ ":R>"

/-- Group a reversed digit list into chunks of three (least significant first),
the grouping that `"{:,}".format` applies. -/
def groups3 : List Char → List (List Char)
  | [] => []
  | [a] => [[a]]
  | [a, b] => [[a, b]]
  | a :: b :: c :: rest => [a, b, c] :: groups3 rest

/-- Python `"{:,}".format(n)`: decimal digits with a comma every three, from the right. -/
def formatComma (n : Nat) : String :=
  let rev := (toString n).data.reverse
  String.mk (((groups3 rev).map List.reverse).reverse.intersperse [',']).flatten

/-- The star-count glyph line of the generated embed (lines 65–69 of
`starboard.py`): `⭐x{:,}` above five, else the glyph repeated, with the
empty string replaced by the no-entry sign (Python `or` on the empty string). -/
def starDisplay (n : Nat) : String :=
  if n > 5 then starGlyph ++ "x" ++ formatComma n
  else
    let stars := String.join (List.replicate n starGlyph)
    if stars = "" then noEntryGlyph else stars

/-- Python `str.split()` with no argument: split on runs of whitespace,
dropping empty pieces. -/
def pySplitWs (s : String) : List String :=
  (s.split (fun c => c = ' ' ∨ c = '\n' ∨ c = '\t' ∨ c = '\x0d')).filter (fun w => w ≠ "")

/-- `textwrap.shorten(text, width, placeholder)`: collapse whitespace; if the
collapsed text fits in `width` return it, else keep the longest word prefix
such that the prefix plus the placeholder fits, appending the placeholder
(the placeholder alone when no word fits). -/
def shorten (text : String) (width : Nat) (placeholder : String) : String :=
  let ws := pySplitWs text
  let full := String.intercalate " " ws
  if full.length ≤ width then full
  else
    let fits := fun k : Nat =>
      (String.intercalate " " (ws.take k)).length + placeholder.length ≤ width
    let k := (((List.range (ws.length + 1)).filter fits).getLast?).getD 0
    if k = 0 then placeholder
    else String.intercalate " " (ws.take k) ++ placeholder

/-- One attachment of the source-message snapshot (url, filename,
content type, spoiler flag), per §3 SourceMessageSnapshot. -/
structure Attachment where
  filename : String
  url : String
  contentType : String
  spoiler : Bool
deriving DecidableEq, Repr

/-- The resolved reply-referenced message, as far as the renderer reads it. -/
structure RefMessage where
  authorDisplayName : String
  jumpUrl : String
  content : String
deriving DecidableEq, Repr

/-- One field of a Discord embed. -/
structure EmbedField where
  name : String
  value : String
  inl : Bool
deriving DecidableEq, Repr

/-- A Discord embed, restricted to the parts the starboard code reads or
writes. `etype` is the embed type string (`"rich"` for bot-assembled and
rich source embeds). -/
structure Embed where
  colour : Nat
  timestamp : Nat
  description : String
  authorName : String
  authorUrl : String
  authorIcon : String
  fields : List EmbedField
  image : Option String
  etype : String
deriving DecidableEq, Repr

/-- `discord.Colour.gold()`. -/
def goldColour : Nat := 0xf1c40f

/-- The source-message snapshot read through the transport at processing
time: exactly the attributes `starboard.py` reads. `reference` carries
`(channel_id, message_id)` of the replied-to message when present. -/
structure Message where
  id : Nat
  authorId : Nat
  authorDisplayName : String
  authorMention : String
  authorAvatarUrl : String
  content : String
  createdAt : Nat
  editedAt : Option Nat
  jumpUrl : String
  channelMention : String
  reactions : List (String × Nat)
  reference : Option (Nat × Nat)
  attachments : List Attachment
  embeds : List Embed
deriving DecidableEq, Repr

/-- Lines 53–57 and 131–135: the live star tally. The reactions are
filtered to the star glyph; an empty filter result is the falsy case and
yields 0, else the first matching reaction's count is taken. -/
def starCount (m : Message) : Nat :=
  match m.reactions.filter (fun r => r.1 == starGlyph) with
  | [] => 0
  | r :: _ => r.2

/-- `list.index(x)`: index of the first equal element (`length` if absent,
which cannot happen for an element of the list). -/
def listIndexOf (l : List Attachment) (a : Attachment) : Nat :=
  l.findIdx (fun x => x == a)

/-- Line 59: a cap is computed inside the renderer from the channel's
`member_count` when the channel type name contains "thread", else the
guild's `member_count` — and then never used (the footer that would have
displayed it, line 113, is commented out). Kept here because §3 of the
spec describes this expression. -/
def rendererCapUnused (channelIsThread : Bool) (channelMemberCount guildMemberCount : Nat) : ℚ :=
  ((if channelIsThread then channelMemberCount else guildMemberCount : Nat) : ℚ) / 10

/-- Lines 52–114, `generate_starboard_embed`, with the reply-reference
fetch outcome passed in as `refResolved` (`none` both when the message has
no reference and when the fetch raised; the source only attempts the fetch
when `message.reference` is set, and silently omits the field on error). -/
def generate_starboard_embed (m : Message) (refResolved : Option RefMessage) : Embed :=
  let sc := starCount m
  let stars := starDisplay sc
  let infoVal :=
    "Star count: " ++ stars ++ "\n" ++
    "Channel: " ++ m.channelMention ++ "\n" ++
    "Author: " ++ m.authorMention ++ "\n" ++
    "URL: [jump](" ++ m.jumpUrl ++ ")\n" ++
    "Sent: " ++ formatDt m.createdAt
  let infoVal :=
    match m.editedAt with
    | some t => infoVal ++ "\nLast edited: " ++ formatDt t
    | none => infoVal
  let e : Embed :=
    { colour := goldColour
      timestamp := m.createdAt
      description := m.content
      authorName := m.authorDisplayName
      authorUrl := m.jumpUrl
      authorIcon := m.authorAvatarUrl
      fields := [⟨"Info", infoVal, false⟩]
      image := none
      etype := "rich" }
  let e :=
    match m.reference, refResolved with
    | some _, some ref =>
      let v := "[Message by " ++ ref.authorDisplayName ++ "](" ++ ref.jumpUrl ++ "):\n>>> "
      let v :=
        if ref.content = "" then v.replace ":\n>>> " ""
        else v ++ shorten ref.content (1024 - v.length) "..."
      { e with fields := e.fields ++ [⟨"In reply to", v, false⟩] }
    | _, _ => e
  m.attachments.foldl
    (fun e file =>
      let nm := "Attachment #" ++ toString (listIndexOf m.attachments file)
      if file.spoiler then
        { e with fields := e.fields ++ [⟨nm, "||[" ++ file.filename ++ "](" ++ file.url ++ ")||", false⟩] }
      else
        let e :=
          if file.contentType.startsWith "image" ∧ e.image = none then
            { e with image := some file.url }
          else e
        { e with fields := e.fields ++ [⟨nm, "[" ++ file.filename ++ "](" ++ file.url ++ ")", false⟩] })
    e

/-- One row of the `StarBoardMessage` ORM table: `id` is the *source*
message id (the unique key), `channel` the source channel id, and
`starboard_message` the id of the mirror message in the starboard channel
(`None` until first posted). Modelled from the spec: `utils/db.py`, where
the table is declared, is not among the sources; field names and roles are
taken from §3 MirrorRecord and every use in `starboard.py`. -/
structure StarBoardMessage where
  id : Nat
  channel : Nat
  starboard_message : Option Nat
deriving DecidableEq, Repr

/-- The Mirror Store: the rows of the `StarBoardMessage` table. -/
abbrev Store := List StarBoardMessage

/-- Modelled from the spec: §4.4 `get(source_message_id) -> record | not-found`
(`StarBoardMessage.objects.get(id=...)`, raising `orm.NoMatch` as `none`). -/
def Store.get (s : Store) (k : Nat) : Option StarBoardMessage :=
  s.find? (fun r => r.id == k)

/-- Modelled from the spec: §4.4 atomic upsert
`get_or_create(source_message_id, source_channel_id) -> (record, created)`;
if absent, inserts with `mirror_message_id = null`
(`StarBoardMessage.objects.get_or_create({"channel": ...}, id=...)`). -/
def Store.getOrCreate (s : Store) (chan k : Nat) : (StarBoardMessage × Bool) × Store :=
  match s.find? (fun r => r.id == k) with
  | some r => ((r, false), s)
  | none => ((⟨k, chan, none⟩, true), s ++ [⟨k, chan, none⟩])

/-- Modelled from the spec: §4.4 `delete(source_message_id)`
(`record.delete()`). -/
def Store.delete (s : Store) (k : Nat) : Store :=
  s.filter (fun r => r.id != k)

/-- Modelled from the spec: §4.4 `set_mirror_message`
(`entry.update(starboard_message=msg.id)`). -/
def Store.setMirror (s : Store) (k mid : Nat) : Store :=
  s.map (fun r => if r.id = k then { r with starboard_message := some mid } else r)

/-- Outcome of `channel.fetch_message(id)` on the starboard channel:
the message exists, or the call raises `discord.NotFound`, or it raises
some other `discord.HTTPException`. -/
inductive FetchOutcome where
  | found
  | notFound
  | httpError
deriving DecidableEq, Repr

/-- The starboard channel (`discord.utils.get(guild.text_channels,
name="starboard")` when it resolves): whether the bot can send there, and
the fetch oracle for message ids in it. -/
structure Channel where
  canSend : Bool
  fetch : Nat → FetchOutcome

/-- `discord.RawReactionActionEvent`, as far as the listener reads it.
`event_type` is the raw string `"REACTION_ADD"` or `"REACTION_REMOVE"`. -/
structure Payload where
  guild_id : Option Nat
  channel_id : Nat
  message_id : Nat
  user_id : Nat
  emoji : String
  event_type : String

/-- Everything one run of the listener observes through the transport:
the payload, the fetched source message, the bot's permissions, the
resolved starboard channel, the member data the cap computation reads,
the resolved reply reference for the renderer, the id the transport
assigns to a newly sent starboard message, and whether the (un-guarded)
`msg.edit` call raises. `channelIsThread` and `guildMemberCount` are part
of the transport data (they feed line 59's unused renderer cap) but are
never read by the synchronizer's cap. -/
structure Env where
  payload : Payload
  message : Message
  botManageMessages : Bool
  starboardChannel : Option Channel
  intentsMembers : Bool
  channelHasMembers : Bool
  channelMemberBots : List Bool
  channelMemberCount : Nat
  channelIsThread : Bool
  guildMemberCount : Nat
  refResolved : Option RefMessage
  newMessageId : Nat
  editRaises : Bool

/-- Python truthiness of an optional snowflake: `None` and `0` are falsy. -/
def truthyNat : Option Nat → Bool
  | none => false
  | some n => n != 0

/-- Lines 160–165: the cap the synchronizer actually compares against.
When the members intent is enabled and the channel object has a `members`
attribute, it is `0.1 ×` the number of non-bot channel members; otherwise
`0.1 × channel.member_count`. The guild's member count is never read
here. (`n * 0.1` is the exact rational `n / 10`, written with
`Rat.divInt`; see `capSync_eq_div`.) -/
def capSync (env : Env) : ℚ :=
  if env.intentsMembers ∧ env.channelHasMembers then
    Rat.divInt ((env.channelMemberBots.filter (fun b => !b)).length) 10
  else Rat.divInt (env.channelMemberCount) 10

/-- Lines 170, 180: the embed list sent with a mirror post or edit — the
generated embed, then the source's `"rich"`-type embeds in order, the
whole list truncated to ten. -/
def assembleEmbeds (generated : Embed) (sourceEmbeds : List Embed) : List Embed :=
  (generated :: sourceEmbeds.filter (fun e => e.etype == "rich")).take 10

/-- Observable side effects of one listener run, in order. -/
inductive Action where
  | removedReaction (emoji : String) (userId : Nat)
  | replied (text : String)
  | deletedMirror (messageId : Nat)
  | posted (newId : Nat) (embeds : List Embed)
  | edited (messageId : Nat) (embeds : List Embed)
  | scheduledArchive (messageId : Nat)
deriving DecidableEq, Repr

/-- Result of one listener run: the table afterwards, the side effects,
and whether an exception escaped the handler. -/
structure Outcome where
  store : Store
  actions : List Action
  raised : Bool
deriving DecidableEq, Repr

/-- Line 128–130's reply text. -/
def selfStarReply (m : Message) : String :=
  "You can\x27t star your own messages you pretentious dick, " ++ m.authorMention ++ "."

/-- Lines 137–153: the zero-tally pre-block. `none` means the handler
returned (no record existed, `orm.NoMatch`); `some (s, acts)` means
execution falls through to `get_or_create` with table `s`.
The source fetches `database.id` — the *source* message id — from the
starboard channel (line 146); on success it deletes that fetched message
(delay-scheduled, `NotFound` swallowed) and in all cases the `finally`
deletes the record. (`message` is rebound to the fetched message on a
successful fetch; a message with the source id can only exist in the
starboard channel when the starred message itself lives there, in which
case it is the same message — the snapshot is left unchanged here.) -/
def preBlock (env : Env) (store : Store) : Option (Store × List Action) :=
  let p := env.payload
  if starCount env.message = 0 then
    match Store.get store p.message_id with
    | none => none
    | some db =>
      match env.starboardChannel with
      | some ch =>
        match ch.fetch db.id with
        | FetchOutcome.found => some (Store.delete store p.message_id, [Action.deletedMirror db.id])
        | _ => some (Store.delete store p.message_id, [])
      | none => some (Store.delete store p.message_id, [])
  else some (store, [])

/-- Lines 155–192: `get_or_create`, then the created branch (cap check,
post, or delete) or the pre-existing branch (fetch the recorded mirror,
repost on `NotFound`, swallow other fetch errors, else edit — the edit
itself is outside the `try` and its error escapes). -/
def mainSync (env : Env) (store : Store) (acts : List Action) : Outcome :=
  let p := env.payload
  let m := env.message
  let sc := starCount m
  let gc := Store.getOrCreate store p.channel_id p.message_id
  let entry := gc.1.1
  let created := gc.1.2
  let store2 := gc.2
  if created then
    if (sc : ℚ) ≥ capSync env then
      match env.starboardChannel with
      | some ch =>
        if ch.canSend then
          let embeds := assembleEmbeds (generate_starboard_embed m env.refResolved) m.embeds
          ⟨Store.setMirror store2 p.message_id env.newMessageId,
           acts ++ [Action.posted env.newMessageId embeds, Action.scheduledArchive env.newMessageId],
           false⟩
        else ⟨store2, acts, false⟩
      | none => ⟨store2, acts, false⟩
    else ⟨Store.delete store2 p.message_id, acts, false⟩
  else
    let embeds := assembleEmbeds (generate_starboard_embed m env.refResolved) m.embeds
    match env.starboardChannel with
    | some ch =>
      if ch.canSend && truthyNat entry.starboard_message then
        match entry.starboard_message with
        | some mid =>
          match ch.fetch mid with
          | FetchOutcome.notFound =>
            ⟨Store.setMirror store2 p.message_id env.newMessageId,
             acts ++ [Action.posted env.newMessageId embeds, Action.scheduledArchive env.newMessageId],
             false⟩
          | FetchOutcome.httpError => ⟨store2, acts, false⟩
          | FetchOutcome.found =>
            if env.editRaises then ⟨store2, acts, true⟩
            else ⟨store2, acts ++ [Action.edited mid embeds, Action.scheduledArchive mid], false⟩
        | none => ⟨store2, acts, false⟩
      else ⟨store2, acts, false⟩
    | none => ⟨store2, acts, false⟩

/-- Lines 116–192, `on_star_add` (registered for both add and remove):
guild guard, emoji guard, self-star rejection, then the zero-tally
pre-block and the synchronizer body. The source-message fetch of line 124
is assumed to succeed (its failure would escape the handler and touches
nothing modelled here). -/
def handleEvent (env : Env) (store : Store) : Outcome :=
  let p := env.payload
  if !truthyNat p.guild_id then ⟨store, [], false⟩
  else if p.emoji ≠ starGlyph then ⟨store, [], false⟩
  else if env.message.authorId = p.user_id ∧ p.event_type = "REACTION_ADD" then
    let retract : List Action :=
      if env.botManageMessages then [Action.removedReaction p.emoji env.message.authorId] else []
    ⟨store, retract ++ [Action.replied (selfStarReply env.message)], false⟩
  else
    match preBlock env store with
    | none => ⟨store, [], false⟩
    | some (s1, a1) => mainSync env s1 a1

/-- Lines 40–43: the effective upload limit. A reported base-tier limit of
exactly 8 MiB is replaced by 25 MiB (comment in the source: "if FS_LIMIT
is 8mb, its actually 25MB"); anything else is used as reported. -/
def effectiveFilesizeLimit (reported : Nat) : Nat :=
  if reported = 8 * 1024 * 1024 then 25 * 1024 * 1024 else reported

/-- What one run of `archive_image` observes: the first embed's image
(`(url, proxy_url)`, present only when `image` and `image.url` are
truthy), the outcome of `GET url` and `GET proxy_url` (`none` = the
request raised `httpx.HTTPError`, `some (status, contentLength)` = a
response arrived), and the guild's reported `filesize_limit`. -/
structure ArchiveEnv where
  image : Option (String × Option String)
  urlFetch : Option (Nat × Nat)
  proxyFetch : Option (Nat × Nat)
  reportedFilesizeLimit : Nat

/-- Result of one `archive_image` run. -/
inductive ArchiveResult where
  | noOp
  | raisedError
  | attached (filename : String)
deriving DecidableEq, Repr

/-- Lines 30–31: the last path segment of the image URL
(`urlparse(url).path.split("/")[-1]`; query strings do not occur in the
scenarios modelled here). -/
def filenameOf (url : String) : String := (url.splitOn "/").getLastD ""

/-- Lines 32–38: resolve a response. `some (some r)` — a response was
obtained (from the URL, or from the proxy after the URL raised);
`some none` — the proxy request raised too (uncaught inside the task);
`none` — the URL raised and there is no proxy (plain `return`). -/
def archiveFetch (env : ArchiveEnv) (proxyUrl : Option String) : Option (Option (Nat × Nat)) :=
  match env.urlFetch with
  | some r => some (some r)
  | none =>
    match proxyUrl with
    | some _ =>
      match env.proxyFetch with
      | some r => some (some r)
      | none => some none
    | none => none

/-- Lines 20–50, `archive_image`: when the first embed carries an image
URL, fetch it (proxy fallback), and re-attach it as a local file iff the
status is 200 and the payload is strictly smaller than the effective
limit; otherwise the mirror is left untouched (the embed keeps the remote
image URL). -/
def archive_image (env : ArchiveEnv) : ArchiveResult :=
  match env.image with
  | none => ArchiveResult.noOp
  | some (url, proxyUrl) =>
    match archiveFetch env proxyUrl with
    | none => ArchiveResult.noOp
    | some none => ArchiveResult.raisedError
    | some (some (status, len)) =>
      if status = 200 ∧ len < effectiveFilesizeLimit env.reportedFilesizeLimit then
        ArchiveResult.attached (filenameOf url)
      else ArchiveResult.noOp

/-- How many rows of the table carry a given source-message id. -/
def countId (s : Store) (k : Nat) : Nat := (s.filter (fun r => r.id == k)).length

/-- Whether an outcome contains a mirror post. -/
def postsMirror (o : Outcome) : Bool :=
  o.actions.any (fun a => match a with | Action.posted _ _ => true | _ => false)

/-- The cap the spec's §3/§4.3 words (claim C3) describe: population is
the thread member count for threads, else the guild member count (the
fallback to reported counts is folded into those two parameters), floored
at 1 when it reports 0, and the cap `0.1 × population` floored at 0. This
definition follows the SPEC's words, for comparison against `capSync`,
which follows the source. -/
def capClaim (channelIsThread : Bool) (threadMemberCount guildMemberCount : Nat) : ℚ :=
  let population := if channelIsThread then threadMemberCount else guildMemberCount
  let population := if population = 0 then 1 else population
  max 0 (Rat.divInt population 10)

/-- Per-action well-formedness of a sent embed list, compared against an
expected list: posts and edits must carry exactly the expected list, of
length between 1 and 10; all other actions are unconstrained. -/
def embedListOk (expected : List Embed) (a : Action) : Bool :=
  match a with
  | Action.posted _ es => es == expected && decide (es.length ≤ 10) && decide (1 ≤ es.length)
  | Action.edited _ es => es == expected && decide (es.length ≤ 10) && decide (1 ≤ es.length)
  | _ => true

/-- A concrete source message: id 100 in channel 10, author 8, one star. -/
def msgBase : Message :=
  { id := 100, authorId := 8, authorDisplayName := "Alice", authorMention := "<@8>"
    authorAvatarUrl := "https://c/a.png", content := "hi"
    createdAt := 17, editedAt := none
    jumpUrl := "https://d/1/10/100"
    channelMention := "<#10>", reactions := [(starGlyph, 1)]
    reference := none, attachments := [], embeds := [] }

/-- The same message with every star reaction gone (tally 0). -/
def msgNoStars : Message := { msgBase with reactions := [] }

/-- A star-add payload by user 7 on message 100. -/
def payloadBase : Payload :=
  { guild_id := some 1, channel_id := 10, message_id := 100, user_id := 7
    emoji := starGlyph, event_type := "REACTION_ADD" }

/-- A starboard channel that contains no message (every fetch raises
`NotFound`) and is sendable. -/
def chNoMirror : Channel := ⟨true, fun _ => FetchOutcome.notFound⟩

/-- A starboard channel containing exactly the mirror message 555. -/
def chMirror555 : Channel :=
  ⟨true, fun n => if n == 555 then FetchOutcome.found else FetchOutcome.notFound⟩

/-- Base environment: star-add by user 7, one non-bot channel member
(synchronizer cap `1/10`), guild member count 100, a sendable empty
starboard channel, new mirror messages get id 999. -/
def envBase : Env :=
  { payload := payloadBase, message := msgBase, botManageMessages := true
    starboardChannel := some chNoMirror, intentsMembers := true, channelHasMembers := true
    channelMemberBots := [false], channelMemberCount := 1, channelIsThread := false
    guildMemberCount := 100, refResolved := none, newMessageId := 999, editRaises := false }

/-- A table holding the record of message 100 with mirror message 555. -/
def storeOne : Store := [⟨100, 10, some 555⟩]

/-- A table holding the record of message 100 with no mirror posted. -/
def storeNull : Store := [⟨100, 10, none⟩]

/-- Star remove bringing message 100 to tally 0, with mirror message 555
present in the starboard channel. -/
def envC1 : Env :=
  { envBase with
    payload := { payloadBase with event_type := "REACTION_REMOVE" }
    message := msgNoStars
    starboardChannel := some chMirror555 }

/-- Same zero-tally event, but the channel member list is empty, so the
synchronizer cap is 0. -/
def envC6 : Env := { envC1 with channelMemberBots := [] }

/-- Star add while the recorded mirror 555 exists and the edit call
raises a transport error. -/
def envC5edit : Env :=
  { envBase with starboardChannel := some chMirror555, editRaises := true }

/-- Star add while the recorded mirror 555 is gone from the starboard
channel (fetch raises `NotFound`). -/
def envC5nf : Env := { envBase with starboardChannel := some chNoMirror }

/-- The author (user 8) stars their own message. -/
def envSelf : Env := { envBase with payload := { payloadBase with user_id := 8 } }

/-- Thirty non-bot channel members: synchronizer cap 3, above the tally 1. -/
def envBelow : Env := { envBase with channelMemberBots := List.replicate 30 false }

/-- Member-list data unavailable and the channel (a thread) reports 0
members. -/
def envC3floor : Env :=
  { envBase with intentsMembers := false, channelMemberCount := 0, channelIsThread := true }

/-- Archive run: 26 MiB payload, status 200, base limit 8 MiB. -/
def envC7 : ArchiveEnv :=
  ⟨some ("https://c/a/img.png", some "https://p/img.png"),
   some (200, 26 * 1024 * 1024), none, 8 * 1024 * 1024⟩

/-- Archive run: 1000-byte payload, status 200, base limit 8 MiB. -/
def envC7ok : ArchiveEnv :=
  ⟨some ("https://c/a/img.png", none), some (200, 1000), none, 8 * 1024 * 1024⟩

theorem countId_eq_zero_of_get_none {s : Store} {k : Nat} (h : Store.get s k = none) :
    countId s k = 0 := by
  have h' := List.find?_eq_none.mp h
  simp only [countId, List.length_eq_zero]
  exact List.filter_eq_nil_iff.mpr h'

theorem delete_countId_self (s : Store) (k : Nat) : countId (Store.delete s k) k = 0 := by
  simp only [countId, Store.delete, List.length_eq_zero]
  refine List.filter_eq_nil_iff.mpr ?_
  intro r hr
  have h := (List.mem_filter.mp hr).2
  simp only [bne_iff_ne, ne_eq] at h
  simp [h]

theorem delete_countId_le (s : Store) (k j : Nat) :
    countId (Store.delete s k) j ≤ countId s j :=
  List.Sublist.length_le (List.Sublist.filter _ (List.filter_sublist s))

theorem countId_append (s t : Store) (j : Nat) :
    countId (s ++ t) j = countId s j + countId t j := by
  simp [countId, List.filter_append]

theorem setMirror_countId (s : Store) (k mid j : Nat) :
    countId (Store.setMirror s k mid) j = countId s j := by
  induction s with
  | nil => rfl
  | cons a t ih =>
    have hid : ((if a.id = k then { a with starboard_message := some mid } else a) :
        StarBoardMessage).id = a.id := by split <;> rfl
    simp only [Store.setMirror, List.map_cons, countId, List.filter_cons, hid] at *
    split <;> simp_all

theorem get_delete_self (s : Store) (k : Nat) : Store.get (Store.delete s k) k = none := by
  simp only [Store.get, Store.delete]
  refine List.find?_eq_none.mpr ?_
  intro r hr
  have h := (List.mem_filter.mp hr).2
  simp only [bne_iff_ne, ne_eq] at h
  simp [h]

theorem delete_eq_of_countId_zero {s : Store} {k : Nat} (h : countId s k = 0) :
    Store.delete s k = s := by
  rw [countId, List.length_eq_zero] at h
  have h' := List.filter_eq_nil_iff.mp h
  simp only [Store.delete]
  refine List.filter_eq_self.mpr ?_
  intro r hr
  have := h' r hr
  simp only [beq_iff_eq] at this
  simp [this]

theorem getOrCreate_of_get_some {s : Store} {k : Nat} {r : StarBoardMessage} (c : Nat)
    (h : Store.get s k = some r) :
    Store.getOrCreate s c k = ((r, false), s) := by
  simp only [Store.getOrCreate, Store.get] at *
  rw [h]

theorem getOrCreate_of_get_none {s : Store} {k : Nat} (c : Nat)
    (h : Store.get s k = none) :
    Store.getOrCreate s c k = ((⟨k, c, none⟩, true), s ++ [⟨k, c, none⟩]) := by
  simp only [Store.getOrCreate, Store.get] at *
  rw [h]

theorem getOrCreate_countId {s : Store} (c k : Nat) (h : ∀ j, countId s j ≤ 1) :
    ∀ j, countId (Store.getOrCreate s c k).2 j ≤ 1 := by
  intro j
  rcases hg : Store.get s k with _ | r
  · rw [getOrCreate_of_get_none c hg, countId_append]
    rcases eq_or_ne k j with rfl | hne
    · have h0 : countId s k = 0 := countId_eq_zero_of_get_none hg
      have h1 : countId [(⟨k, c, none⟩ : StarBoardMessage)] k = 1 := by simp [countId]
      rw [h0, h1]
    · have h1 : countId [(⟨k, c, none⟩ : StarBoardMessage)] j = 0 := by simp [countId, hne]
      simpa [h1] using h j
  · rw [getOrCreate_of_get_some c hg]
    exact h j

theorem mainSync_store_countId (env : Env) (s : Store) (acts : List Action)
    (h : ∀ j, countId s j ≤ 1) : ∀ j, countId (mainSync env s acts).store j ≤ 1 := by
  intro j
  have h2 := getOrCreate_countId env.payload.channel_id env.payload.message_id h
  simp only [mainSync]
  repeat' split
  all_goals
    first
      | exact h2 j
      | (rw [setMirror_countId]; exact h2 j)
      | exact le_trans (delete_countId_le _ _ _) (h2 j)

theorem preBlock_shape (env : Env) (store : Store) (s1 : Store) (a1 : List Action)
    (h : preBlock env store = some (s1, a1)) :
    (s1 = store ∨ s1 = Store.delete store env.payload.message_id) ∧
    (a1 = [] ∨ ∃ d, a1 = [Action.deletedMirror d]) := by
  simp only [preBlock] at h
  repeat' split at h
  all_goals simp_all
  all_goals tauto

theorem preBlock_of_get_none (env : Env) (store : Store)
    (hnone : Store.get store env.payload.message_id = none) :
    preBlock env store = none ∨ preBlock env store = some (store, []) := by
  simp only [preBlock]
  split
  · rw [hnone]
    exact Or.inl rfl
  · exact Or.inr rfl

theorem handleEvent_countId (env : Env) (store : Store)
    (h : ∀ j, countId store j ≤ 1) : ∀ j, countId (handleEvent env store).store j ≤ 1 := by
  intro j
  simp only [handleEvent]
  split
  · exact h j
  split
  · exact h j
  split
  · exact h j
  rcases hpre : preBlock env store with _ | ⟨s1, a1⟩
  · simp only [hpre]
    exact h j
  · simp only [hpre]
    have hs1 : ∀ i, countId s1 i ≤ 1 := by
      rcases (preBlock_shape env store s1 a1 hpre).1 with rfl | rfl
      · exact h
      · intro i
        exact le_trans (delete_countId_le _ _ _) (h i)
    exact mainSync_store_countId env s1 a1 hs1 j

theorem delete_append (s t : Store) (k : Nat) :
    Store.delete (s ++ t) k = Store.delete s k ++ Store.delete t k := by
  simp [Store.delete, List.filter_append]

theorem capSync_eq_div (env : Env) :
    capSync env =
      (if env.intentsMembers ∧ env.channelHasMembers then
        ((env.channelMemberBots.filter (fun b => !b)).length : ℚ)
      else (env.channelMemberCount : ℚ)) / 10 := by
  unfold capSync
  split <;> rw [Rat.divInt_eq_div] <;> push_cast <;> ring

theorem assembleEmbeds_eq (g : Embed) (l : List Embed) :
    assembleEmbeds g l = g :: (l.filter (fun e => e.etype == "rich")).take 9 := by
  rw [assembleEmbeds, show (10 : Nat) = 9 + 1 from rfl, List.take_succ_cons]

theorem assembleEmbeds_length_le (g : Embed) (l : List Embed) :
    (assembleEmbeds g l).length ≤ 10 := by
  rw [assembleEmbeds]
  simp [List.length_take]

theorem assembleEmbeds_length_pos (g : Embed) (l : List Embed) :
    1 ≤ (assembleEmbeds g l).length := by
  rw [assembleEmbeds_eq]
  simp

theorem mainSync_actions_all (env : Env) (s : Store) (acts : List Action) (P : Action → Bool)
    (hacts : acts.all P = true)
    (hp : P (Action.posted env.newMessageId
      (assembleEmbeds (generate_starboard_embed env.message env.refResolved)
        env.message.embeds)) = true)
    (he : ∀ mid, P (Action.edited mid
      (assembleEmbeds (generate_starboard_embed env.message env.refResolved)
        env.message.embeds)) = true)
    (hs : ∀ mid, P (Action.scheduledArchive mid) = true) :
    (mainSync env s acts).actions.all P = true := by
  simp only [mainSync]
  repeat' split
  all_goals simp_all [List.all_append]

theorem handleEvent_actions_all (env : Env) (store : Store) (P : Action → Bool)
    (hp : P (Action.posted env.newMessageId
      (assembleEmbeds (generate_starboard_embed env.message env.refResolved)
        env.message.embeds)) = true)
    (he : ∀ mid, P (Action.edited mid
      (assembleEmbeds (generate_starboard_embed env.message env.refResolved)
        env.message.embeds)) = true)
    (hs : ∀ mid, P (Action.scheduledArchive mid) = true)
    (hr : ∀ t, P (Action.replied t) = true)
    (hrm : ∀ e u, P (Action.removedReaction e u) = true)
    (hd : ∀ d, P (Action.deletedMirror d) = true) :
    (handleEvent env store).actions.all P = true := by
  simp only [handleEvent]
  split
  · rfl
  split
  · rfl
  split
  · split <;> simp [hr, hrm]
  rcases hpre : preBlock env store with _ | ⟨s1, a1⟩
  · simp [hpre]
  · simp only [hpre]
    refine mainSync_actions_all env s1 a1 P ?_ hp he hs
    rcases (preBlock_shape env store s1 a1 hpre).2 with rfl | ⟨d, rfl⟩ <;> simp [hd]

/-- C9: for every pair of renderer invocations on identical inputs
(identical source-message snapshot, identical resolved reply reference —
the tally is part of the snapshot's reactions), the produced embeds are
identical. The embedding of `generate_starboard_embed` is a pure function
of exactly these inputs: every datum the source reads (message fields,
reactions, the fetched reply) is a parameter, so two calls on equal
inputs yield equal embeds. -/
theorem c9_render_deterministic (m : Message) (refResolved : Option RefMessage) :
    generate_starboard_embed m refResolved = generate_starboard_embed m refResolved := rfl

/-- C4: a reaction-add whose actor is the message author retracts the
reaction when the bot can manage messages, replies to the author, and
returns: the outcome's table is the input table unchanged, the only
actions are the optional retraction and the reply, and nothing escapes —
the Mirror Store is never touched on this path. -/
theorem c4_self_star_no_store_mutation (env : Env) (store : Store)
    (hg : truthyNat env.payload.guild_id = true)
    (he : env.payload.emoji = starGlyph)
    (ha : env.message.authorId = env.payload.user_id)
    (ht : env.payload.event_type = "REACTION_ADD") :
    handleEvent env store =
      ⟨store,
        (if env.botManageMessages then
          [Action.removedReaction env.payload.emoji env.message.authorId]
        else []) ++ [Action.replied (selfStarReply env.message)],
        false⟩ := by
  simp [handleEvent, hg, he, ha, ht]

/-- Witness for C4 at a concrete input: user 8 stars their own message
100; the table (one record) is unchanged and the handler retracts and
replies. -/
theorem c4_witness :
    (truthyNat envSelf.payload.guild_id = true ∧
     envSelf.payload.emoji = starGlyph ∧
     envSelf.message.authorId = envSelf.payload.user_id ∧
     envSelf.payload.event_type = "REACTION_ADD") ∧
    handleEvent envSelf storeOne =
      ⟨storeOne,
        (if envSelf.botManageMessages then
          [Action.removedReaction envSelf.payload.emoji envSelf.message.authorId]
        else []) ++ [Action.replied (selfStarReply envSelf.message)],
        false⟩ :=
  ⟨⟨by decide, by decide, by decide, by decide⟩,
   c4_self_star_no_store_mutation envSelf storeOne (by decide) (by decide) (by decide) (by decide)⟩

/-- C10: an event on a message whose record pre-exists with
`starboard_message` null, with nonzero live tally, changes nothing:
the table is returned unchanged, nothing escapes, and no mirror message
is posted or edited — a mirror is never (re)posted from this state,
whatever the cap. -/
theorem c10_pending_record_frame (env : Env) (store : Store) (rec : StarBoardMessage)
    (hsc : starCount env.message ≠ 0)
    (hget : Store.get store env.payload.message_id = some rec)
    (hnull : rec.starboard_message = none) :
    (handleEvent env store).store = store ∧
    (handleEvent env store).raised = false ∧
    ((handleEvent env store).actions.all
      (fun a => match a with
        | Action.posted _ _ => false
        | Action.edited _ _ => false
        | _ => true)) = true := by
  simp only [handleEvent]
  split
  · exact ⟨rfl, rfl, rfl⟩
  split
  · exact ⟨rfl, rfl, rfl⟩
  split
  · refine ⟨rfl, rfl, ?_⟩
    split <;> rfl
  have hpre : preBlock env store = some (store, []) := by
    simp only [preBlock]
    split
    · next h => exact absurd h hsc
    · rfl
  simp only [hpre]
  rcases hch : env.starboardChannel with _ | ch <;>
    simp [mainSync, getOrCreate_of_get_some env.payload.channel_id hget, hch, hnull, truthyNat]

/-- Witness for C10 at a concrete input: star add on message 100 whose
record exists with no mirror id; outcome is a no-op. -/
theorem c10_witness :
    (starCount envBase.message ≠ 0 ∧
     Store.get storeNull envBase.payload.message_id =
       some ⟨100, 10, none⟩ ∧
     (⟨100, 10, none⟩ : StarBoardMessage).starboard_message = none) ∧
    ((handleEvent envBase storeNull).store = storeNull ∧
     (handleEvent envBase storeNull).raised = false ∧
     ((handleEvent envBase storeNull).actions.all
       (fun a => match a with
         | Action.posted _ _ => false
         | Action.edited _ _ => false
         | _ => true)) = true) :=
  ⟨⟨by decide, by decide, rfl⟩,
   c10_pending_record_frame envBase storeNull ⟨100, 10, none⟩ (by decide) (by decide) rfl⟩

/-- C8: every embed list carried by a mirror post or edit equals the
generated embed followed by the source message's `"rich"`-type embeds in
source order, truncated to at most 10 in total (hence at most 9 copied
ones) and always at least 1 — over every environment and table. -/
theorem c8_mirror_embed_list (env : Env) (store : Store) :
    ((handleEvent env store).actions.all
      (embedListOk (generate_starboard_embed env.message env.refResolved ::
        (env.message.embeds.filter (fun e => e.etype == "rich")).take 9))) = true := by
  apply handleEvent_actions_all
  · simp [embedListOk, ← assembleEmbeds_eq, assembleEmbeds_length_le, assembleEmbeds_length_pos]
  · intro mid
    simp [embedListOk, ← assembleEmbeds_eq, assembleEmbeds_length_le, assembleEmbeds_length_pos]
  · intro mid; rfl
  · intro t; rfl
  · intro e u; rfl
  · intro d; rfl

/-- C2: the Mirror Store keeps at most one record per source-message id
across every processed event (first conjunct, over arbitrary environments
and tables already satisfying the invariant — `get_or_create` is the only
inserter and only fires when no row matches); and processing an Add event
for a message with tally below the cap and no prior record leaves the
table exactly as it was — hence firing the same event twice leaves no
record for the id after each run. -/
theorem c2_at_most_one_record (env : Env) (store : Store)
    (hinv : ∀ j, countId store j ≤ 1)
    (hadd : env.payload.event_type = "REACTION_ADD")
    (hnone : Store.get store env.payload.message_id = none)
    (hcap : ((starCount env.message : ℚ)) < capSync env) :
    (∀ env' (store' : Store), (∀ j, countId store' j ≤ 1) →
      ∀ j, countId (handleEvent env' store').store j ≤ 1) ∧
    (handleEvent env store).store = store ∧
    countId (handleEvent env store).store env.payload.message_id = 0 ∧
    (handleEvent env (handleEvent env store).store).store = store := by
  have hframe : (handleEvent env store).store = store := by
    simp only [handleEvent]
    split
    · rfl
    split
    · rfl
    split
    · rfl
    rcases preBlock_of_get_none env store hnone with hpre | hpre <;> simp only [hpre]
    simp only [mainSync, getOrCreate_of_get_none env.payload.channel_id hnone]
    rw [if_pos trivial, if_neg (not_le.mpr hcap), delete_append,
      delete_eq_of_countId_zero (countId_eq_zero_of_get_none hnone)]
    simp [Store.delete]
  refine ⟨fun env' store' h => handleEvent_countId env' store' h, hframe, ?_, ?_⟩
  · rw [hframe]
    exact countId_eq_zero_of_get_none hnone
  · rw [hframe]
    exact hframe

/-- Witness for C2 at a concrete input: empty table, tally 1 against cap
3 (thirty non-bot members); the event — fired once and twice — leaves no
record. -/
theorem c2_witness :
    ((envBelow.payload.event_type = "REACTION_ADD") ∧
     Store.get ([] : Store) envBelow.payload.message_id = none ∧
     ((starCount envBelow.message : ℚ)) < capSync envBelow) ∧
    ((∀ env' (store' : Store), (∀ j, countId store' j ≤ 1) →
       ∀ j, countId (handleEvent env' store').store j ≤ 1) ∧
     (handleEvent envBelow []).store = [] ∧
     countId (handleEvent envBelow []).store envBelow.payload.message_id = 0 ∧
     (handleEvent envBelow (handleEvent envBelow []).store).store = []) :=
  ⟨⟨by decide, by decide, by decide⟩,
   c2_at_most_one_record envBelow []
     (fun j => by simp [countId]) (by decide) (by decide) (by decide)⟩

/-- C1 (divergence witness): star reactions on message 100 drop to 0
while its record points at mirror message 555, which is present in the
starboard channel. The run deletes the record but emits no deletion of
mirror 555: the source fetches `database.id` — the source message id —
from the starboard channel instead of `database.starboard_message`, the
resulting `NotFound` is swallowed, and the mirror message survives. -/
theorem c1_zero_tally_mirror_survives :
    chMirror555.fetch 555 = FetchOutcome.found ∧
    Store.get storeOne envC1.payload.message_id = some ⟨100, 10, some 555⟩ ∧
    starCount envC1.message = 0 ∧
    handleEvent envC1 storeOne = ⟨[], [], false⟩ ∧
    Action.deletedMirror 555 ∉ (handleEvent envC1 storeOne).actions :=
  ⟨rfl, by decide, by decide, by decide, by decide⟩

/-- C6 (cex): with an empty channel member list the synchronizer cap is
0, and a zero-tally event on a recorded message — after the pre-block
deletes the row, `get_or_create` re-creates it, so the record is "just
created" with tally 0 — does NOT delete the record and stop: `0 >= 0`
holds, so a fresh mirror of the zero-star message is posted and the
record keeps the new mirror id. The claim fails at cap 0. -/
theorem c6_zero_cap_posts_zero_tally :
    capSync envC6 = 0 ∧
    starCount envC6.message = 0 ∧
    postsMirror (handleEvent envC6 storeOne) = true ∧
    Store.get (handleEvent envC6 storeOne).store 100 = some ⟨100, 10, some 999⟩ :=
  ⟨by decide, by decide, by decide, by decide⟩

/-- C6 amended: when the cap is strictly positive, a zero-tally event on
a recorded message ends with no record for the id and no mirror posted
(the claim's behaviour); at cap 0 the code instead posts (see the
counterexample). -/
theorem c6_created_zero_tally_deleted (env : Env) (store : Store) (rec : StarBoardMessage)
    (hg : truthyNat env.payload.guild_id = true)
    (he : env.payload.emoji = starGlyph)
    (hns : ¬(env.message.authorId = env.payload.user_id ∧
      env.payload.event_type = "REACTION_ADD"))
    (hsc : starCount env.message = 0)
    (hrec : Store.get store env.payload.message_id = some rec)
    (hcap : 0 < capSync env) :
    Store.get (handleEvent env store).store env.payload.message_id = none ∧
    postsMirror (handleEvent env store) = false := by
  obtain ⟨a1, hpre, ha1⟩ : ∃ a1,
      preBlock env store = some (Store.delete store env.payload.message_id, a1) ∧
      (a1 = [] ∨ ∃ d, a1 = [Action.deletedMirror d]) := by
    simp only [preBlock, hsc, if_pos, hrec]
    rcases env.starboardChannel with _ | ch
    · exact ⟨[], rfl, Or.inl rfl⟩
    · rcases hcf : ch.fetch rec.id with _ | _ | _
      · exact ⟨[Action.deletedMirror rec.id], by simp [hcf], Or.inr ⟨_, rfl⟩⟩
      · exact ⟨[], by simp [hcf], Or.inl rfl⟩
      · exact ⟨[], by simp [hcf], Or.inl rfl⟩
  have hn : Store.get (Store.delete store env.payload.message_id) env.payload.message_id =
      none := get_delete_self _ _
  have hnge : ¬ ((starCount env.message : ℚ) ≥ capSync env) := by
    rw [hsc]
    push_cast
    exact not_le.mpr hcap
  simp only [handleEvent, hg, Bool.not_true]
  rw [if_neg (by simp)]
  rw [if_neg (by simp [he])]
  rw [if_neg hns]
  simp only [hpre]
  simp only [mainSync, getOrCreate_of_get_none env.payload.channel_id hn]
  rw [if_pos trivial, if_neg hnge]
  refine ⟨get_delete_self _ _, ?_⟩
  rcases ha1 with rfl | ⟨d, rfl⟩ <;> simp [postsMirror]

/-- Witness for the amended C6 at a concrete input: cap `1/10 > 0`,
tally 0, record present; afterwards no record, nothing posted. -/
theorem c6_witness :
    (starCount envC1.message = 0 ∧
     Store.get storeOne envC1.payload.message_id = some ⟨100, 10, some 555⟩ ∧
     0 < capSync envC1) ∧
    (Store.get (handleEvent envC1 storeOne).store envC1.payload.message_id = none ∧
     postsMirror (handleEvent envC1 storeOne) = false) :=
  ⟨⟨by decide, by decide, by decide⟩,
   c6_created_zero_tally_deleted envC1 storeOne ⟨100, 10, some 555⟩
     (by decide) (by decide) (by decide) (by decide) (by decide) (by decide)⟩

/-- C5 (cex): with the record pre-existing, `mirror_message_id` set to
555 and the mirror fetch succeeding, a transport error raised by the
`msg.edit` call (line 191, in the `else:` of the `try`) is NOT caught:
it escapes the handler, contradicting "no error propagates to the event
source". -/
theorem c5_edit_error_propagates :
    Store.get storeOne envC5edit.payload.message_id = some ⟨100, 10, some 555⟩ ∧
    chMirror555.fetch 555 = FetchOutcome.found ∧
    envC5edit.editRaises = true ∧
    (handleEvent envC5edit storeOne).raised = true :=
  ⟨by decide, rfl, rfl, by decide⟩

/-- C5 amended: for a pre-existing record with `starboard_message = mid`
and a sendable starboard channel, only errors of the mirror FETCH are
caught — `NotFound` triggers a repost (regardless of cap) with
`starboard_message` updated to the new id, any other fetch error is
swallowed with no repost — while an error raised by the edit itself
escapes to the event source. -/
theorem c5_mirror_fetch_error_handling (env : Env) (store : Store) (rec : StarBoardMessage)
    (mid : Nat) (ch : Channel)
    (hg : truthyNat env.payload.guild_id = true)
    (he : env.payload.emoji = starGlyph)
    (hns : ¬(env.message.authorId = env.payload.user_id ∧
      env.payload.event_type = "REACTION_ADD"))
    (hsc : starCount env.message ≠ 0)
    (hrec : Store.get store env.payload.message_id = some rec)
    (hmid : rec.starboard_message = some mid)
    (hmid0 : mid ≠ 0)
    (hch : env.starboardChannel = some ch)
    (hcs : ch.canSend = true) :
    (ch.fetch mid = FetchOutcome.notFound →
      (handleEvent env store).store =
        Store.setMirror store env.payload.message_id env.newMessageId ∧
      postsMirror (handleEvent env store) = true ∧
      (handleEvent env store).raised = false) ∧
    (ch.fetch mid = FetchOutcome.httpError →
      handleEvent env store = ⟨store, [], false⟩) ∧
    (ch.fetch mid = FetchOutcome.found → env.editRaises = true →
      handleEvent env store = ⟨store, [], true⟩) ∧
    (ch.fetch mid = FetchOutcome.found → env.editRaises = false →
      handleEvent env store =
        ⟨store,
          [Action.edited mid (generate_starboard_embed env.message env.refResolved ::
            (env.message.embeds.filter (fun e => e.etype == "rich")).take 9),
           Action.scheduledArchive mid],
          false⟩) := by
  have hpre : preBlock env store = some (store, []) := by
    simp only [preBlock]
    split
    · next h => exact absurd h hsc
    · rfl
  have htr : truthyNat rec.starboard_message = true := by
    simp [hmid, truthyNat, hmid0]
  simp only [handleEvent, hg, Bool.not_true]
  rw [if_neg (by simp)]
  rw [if_neg (by simp [he])]
  rw [if_neg hns]
  simp only [hpre]
  simp only [mainSync, getOrCreate_of_get_some env.payload.channel_id hrec, hch]
  rw [if_neg (by simp)]
  rw [if_pos (by simp [hcs, htr])]
  simp only [hmid]
  refine ⟨?_, ?_, ?_, ?_⟩
  · intro hcf
    simp [hcf, postsMirror]
  · intro hcf
    simp [hcf]
  · intro hcf hed
    simp [hcf, hed]
  · intro hcf hed
    simp [hcf, hed, assembleEmbeds_eq]

/-- Witness for the amended C5 at a concrete input: the recorded mirror
555 is gone (`NotFound`); the run reposts as message 999, updates the
record, and raises nothing. -/
theorem c5_witness :
    (starCount envC5nf.message ≠ 0 ∧
     Store.get storeOne envC5nf.payload.message_id = some ⟨100, 10, some 555⟩ ∧
     envC5nf.starboardChannel = some chNoMirror ∧
     chNoMirror.fetch 555 = FetchOutcome.notFound) ∧
    ((handleEvent envC5nf storeOne).store =
       Store.setMirror storeOne envC5nf.payload.message_id envC5nf.newMessageId ∧
     postsMirror (handleEvent envC5nf storeOne) = true ∧
     (handleEvent envC5nf storeOne).raised = false) :=
  ⟨⟨by decide, by decide, rfl, rfl⟩,
   (c5_mirror_fetch_error_handling envC5nf storeOne ⟨100, 10, some 555⟩ 555 chNoMirror
     (by decide) (by decide) (by decide) (by decide) (by decide) rfl (by decide) rfl rfl).1 rfl⟩

/-- C3 (cex): the synchronizer's cap is not the spec's formula. In a
non-thread channel with one non-bot channel member and a guild of 100,
the code computes `1/10` while the claim's formula (`capClaim`, written
from the spec's words) gives 10 — the guild member count is never read by
lines 160–165. And with member-list data unavailable and a reported
channel member count of 0, the code computes 0 while the claim's
population floor of 1 gives `1/10` — there is no floor in the code. -/
theorem c3_cap_not_spec_formula :
    (envBase.channelIsThread = false ∧ envBase.guildMemberCount = 100) ∧
    capSync envBase = Rat.divInt 1 10 ∧
    capClaim envBase.channelIsThread envBase.channelMemberCount envBase.guildMemberCount = 10 ∧
    capSync envBase ≠
      capClaim envBase.channelIsThread envBase.channelMemberCount envBase.guildMemberCount ∧
    capSync envC3floor = 0 ∧
    capClaim envC3floor.channelIsThread envC3floor.channelMemberCount
      envC3floor.guildMemberCount = Rat.divInt 1 10 ∧
    capSync envC3floor ≠
      capClaim envC3floor.channelIsThread envC3floor.channelMemberCount
        envC3floor.guildMemberCount := by
  refine ⟨⟨rfl, rfl⟩, by decide, ?_, ?_, by decide, ?_, ?_⟩ <;>
    simp [capClaim, capSync, envBase, envC3floor, Rat.divInt_eq_div] <;> norm_num

/-- C3 amended: the cap the synchronizer uses is channel-derived only —
`0.1 ×` the number of non-bot entries of the channel's member list when
the members intent is on and the channel exposes one, else `0.1 ×` the
channel's reported member count; there is no population floor and the
guild count is not consulted — and, on the creation path with a sendable
starboard channel, a mirror is posted exactly when the live tally is `≥`
this (possibly fractional) cap, with no rounding. -/
theorem c3_cap_channel_based (env : Env) (store : Store) (ch : Channel)
    (hg : truthyNat env.payload.guild_id = true)
    (he : env.payload.emoji = starGlyph)
    (hns : ¬(env.message.authorId = env.payload.user_id ∧
      env.payload.event_type = "REACTION_ADD"))
    (hsc : starCount env.message ≠ 0)
    (hnone : Store.get store env.payload.message_id = none)
    (hch : env.starboardChannel = some ch)
    (hcs : ch.canSend = true) :
    (postsMirror (handleEvent env store) = true ↔
      (starCount env.message : ℚ) ≥ capSync env) ∧
    capSync env =
      (if env.intentsMembers ∧ env.channelHasMembers then
        ((env.channelMemberBots.filter (fun b => !b)).length : ℚ)
      else (env.channelMemberCount : ℚ)) / 10 := by
  refine ⟨?_, capSync_eq_div env⟩
  have hpre : preBlock env store = some (store, []) := by
    simp only [preBlock]
    split
    · next h => exact absurd h hsc
    · rfl
  simp only [handleEvent, hg, Bool.not_true]
  rw [if_neg (by simp)]
  rw [if_neg (by simp [he])]
  rw [if_neg hns]
  simp only [hpre]
  simp only [mainSync, getOrCreate_of_get_none env.payload.channel_id hnone, hch]
  rw [if_pos trivial]
  rcases le_or_lt (capSync env) ((starCount env.message : ℚ)) with hge | hlt
  · rw [if_pos hge]
    rw [if_pos (by simp [hcs])]
    simp [postsMirror, hge]
  · rw [if_neg (not_le.mpr hlt)]
    simp [postsMirror, not_le.mpr hlt]

/-- Witness for the amended C3 at a concrete input: tally 1, cap `1/10`;
the mirror is posted, and the iff and the cap formula hold. -/
theorem c3_witness :
    (starCount envBase.message ≠ 0 ∧
     Store.get ([] : Store) envBase.payload.message_id = none ∧
     envBase.starboardChannel = some chNoMirror ∧ chNoMirror.canSend = true) ∧
    ((postsMirror (handleEvent envBase []) = true ↔
       (starCount envBase.message : ℚ) ≥ capSync envBase) ∧
     capSync envBase =
       (if envBase.intentsMembers ∧ envBase.channelHasMembers then
         ((envBase.channelMemberBots.filter (fun b => !b)).length : ℚ)
       else (envBase.channelMemberCount : ℚ)) / 10) :=
  ⟨⟨by decide, by decide, rfl, rfl⟩,
   c3_cap_channel_based envBase [] chNoMirror
     (by decide) (by decide) (by decide) (by decide) (by decide) rfl rfl⟩

/-- C7 (cex): the effective limit for the reported 8 MiB base tier is a
fixed 25 MiB, not the base quadrupled (32 MiB): a 26 MiB payload with
status 200 — within the claim's quadrupled limit — is not attached; the
embed keeps the remote image URL (`noOp`). -/
theorem c7_limit_not_quadrupled :
    effectiveFilesizeLimit (8 * 1024 * 1024) = 25 * 1024 * 1024 ∧
    effectiveFilesizeLimit (8 * 1024 * 1024) ≠ 4 * (8 * 1024 * 1024) ∧
    26 * 1024 * 1024 < 4 * (8 * 1024 * 1024) ∧
    envC7.urlFetch = some (200, 26 * 1024 * 1024) ∧
    archive_image envC7 = ArchiveResult.noOp :=
  ⟨by decide, by decide, by decide, rfl, by decide⟩

/-- C7 amended: when an image URL is present and a response was obtained
(from the URL or the proxy fallback), the image is attached as a local
file iff the status is 200 and the payload is strictly smaller than the
effective limit — which for the reported 8 MiB base tier is the fixed
override 25 MiB — and otherwise the run is a no-op: the embed keeps the
original remote image URL. -/
theorem c7_attach_below_limit (env : ArchiveEnv) (url : String) (proxyUrl : Option String)
    (status len : Nat)
    (himg : env.image = some (url, proxyUrl))
    (hfetch : archiveFetch env proxyUrl = some (some (status, len))) :
    (archive_image env = ArchiveResult.attached (filenameOf url) ↔
      (status = 200 ∧ len < effectiveFilesizeLimit env.reportedFilesizeLimit)) ∧
    (¬(status = 200 ∧ len < effectiveFilesizeLimit env.reportedFilesizeLimit) →
      archive_image env = ArchiveResult.noOp) ∧
    effectiveFilesizeLimit (8 * 1024 * 1024) = 25 * 1024 * 1024 := by
  simp only [archive_image, himg, hfetch]
  refine ⟨?_, ?_, rfl⟩
  · split
    · next h => simp [h]
    · next h => simp [h]
  · intro h
    rw [if_neg h]

/-- Witness for the amended C7 at a concrete input: a 1000-byte payload
with status 200 under the 8 MiB base tier is attached as `img.png`. -/
theorem c7_witness :
    (envC7ok.image = some ("https://c/a/img.png", none) ∧
     archiveFetch envC7ok none = some (some (200, 1000))) ∧
    ((archive_image envC7ok = ArchiveResult.attached (filenameOf "https://c/a/img.png") ↔
       (200 = 200 ∧ 1000 < effectiveFilesizeLimit envC7ok.reportedFilesizeLimit)) ∧
     (¬(200 = 200 ∧ 1000 < effectiveFilesizeLimit envC7ok.reportedFilesizeLimit) →
       archive_image envC7ok = ArchiveResult.noOp) ∧
     effectiveFilesizeLimit (8 * 1024 * 1024) = 25 * 1024 * 1024) :=
  ⟨⟨rfl, rfl⟩,
   c7_attach_below_limit envC7ok "https://c/a/img.png" none 200 1000 rfl rfl⟩

end LCC
